import Mathlib

/-!
Verification of `state/apiserver/root.go`: the per-connection authenticated
session object ("root") of the juju API server. The root authorizes access
to facades, owns a per-connection registry of watcher resources, and tears
everything down on disconnect.

Methods of `srvRoot` are embedded as functions that take the receiver and
return the result together with the receiver after the call, so frame
conditions ("the registry is unchanged by the call") are statable.
Collaborators that live in this repository but outside `root.go`
(`common.Resources`, `isAgent`, `isMachineWithJob`, the facade
constructors) are modelled from the spec, each marked in its doc comment.
-/

namespace ApiServer

/-- Job a machine agent may run; `state.JobManageEnviron` marks the
privileged environment-manager role. -/
inductive MachineJob
  | JobManageEnviron
  | JobHostUnits
  deriving DecidableEq

/-- Kind of an authenticated entity: `*state.Machine` and `*state.Unit` are
automated agents, `*state.User` is an interactive client. -/
inductive EntityKind
  | machine
  | unit
  | user
  deriving DecidableEq

/-- Authenticated principal (`state.TaggedAuthenticator`): an identity tag,
a kind, and (for machines) the jobs it runs. -/
structure Entity where
  kind : EntityKind
  tag : String
  jobs : List MachineJob
  deriving DecidableEq

/-- Modelled from the spec: `isAgent` is defined elsewhere in the
repository (not under src/). Per spec sections 3 and 4.2 the entity is
classified into exactly one of agent and client: machine and unit
principals are agents, users are interactive clients. -/
def isAgent (e : Entity) : Bool :=
  e.kind != EntityKind.user

/-- Modelled from the spec: `isMachineWithJob` is defined elsewhere in the
repository (not under src/). Per spec section 4.2 it is the
privileged-role membership query: the entity is a machine agent that runs
the given job. -/
def isMachineWithJob (e : Entity) (j : MachineJob) : Bool :=
  e.kind == EntityKind.machine && e.jobs.contains j

/-- Watcher capability categories distinguished by the Go type assertions:
`state.NotifyWatcher` (single-value), `state.StringsWatcher` (string-list)
and `*multiwatcher.Watcher` (aggregated delta stream). -/
inductive WatcherKind
  | notify
  | strings
  | all
  deriving DecidableEq

/-- A registrable resource: its watcher category plus whether its stop
operation fails when attempted (spec: stops are best-effort). -/
structure Resource where
  kind : WatcherKind
  stopFails : Bool
  deriving DecidableEq

/-- Modelled from the spec: `common.Resources` (package
`state/apiserver/common`, not under src/). Per spec section 4.1 it is a
per-connection keyed store of stoppable resources with `Register` (fresh
id from a counter), `Get` (id lookup, miss reports unknown), `Stop` and
`StopAll` (each stop attempted independently; failures do not block
draining the rest). -/
structure Resources where
  maxId : Nat
  entries : List (String × Resource)
  deriving DecidableEq

/-- Modelled from the spec: `common.NewResources` returns an empty
registry. -/
def Resources.new : Resources :=
  ⟨0, []⟩

/-- Modelled from the spec: `Get(id)` returns the resource registered
under `id`, or nothing on a miss. -/
def Resources.get (rs : Resources) (id : String) : Option Resource :=
  (rs.entries.find? (fun p => p.1 == id)).map (fun p => p.2)

/-- Modelled from the spec: `Register(resource)` stores the resource under
a fresh, currently-unused id drawn from the counter and returns that id. -/
def Resources.register (rs : Resources) (r : Resource) : String × Resources :=
  let id := toString (rs.maxId + 1)
  (id, ⟨rs.maxId + 1, (id, r) :: rs.entries⟩)

/-- Modelled from the spec: `StopAll()` attempts each tracked resource's
stop independently (first component: per-resource success), and removes
every entry regardless of individual failures, so no resource remains
tracked. -/
def Resources.stopAll (rs : Resources) : List Bool × Resources :=
  (rs.entries.map (fun p => !p.2.stopFails), ⟨rs.maxId, []⟩)

/-- Errors of `state/apiserver/common`: `ErrPerm` (permission denied),
`ErrBadId` (bad identifier), `ErrUnknownWatcher` (unknown resource). -/
inductive ApiError
  | ErrPerm
  | ErrBadId
  | ErrUnknownWatcher
  deriving DecidableEq

instance {ε α : Type} [DecidableEq ε] [DecidableEq α] : DecidableEq (Except ε α) := fun x y =>
  match x, y with
  | Except.ok a, Except.ok b =>
    if h : a = b then Decidable.isTrue (h ▸ rfl)
    else Decidable.isFalse (fun hc => h (Except.ok.inj hc))
  | Except.ok _, Except.error _ => Decidable.isFalse (fun hc => Except.noConfusion hc)
  | Except.error _, Except.ok _ => Decidable.isFalse (fun hc => Except.noConfusion hc)
  | Except.error a, Except.error b =>
    if h : a = b then Decidable.isTrue (h ▸ rfl)
    else Decidable.isFalse (fun hc => h (Except.error.inj hc))

/-- The per-connection root (`srvRoot`): the server handle (opaque), the
per-connection resource registry, and the authenticated entity. -/
structure SrvRoot where
  srv : Nat
  resources : Resources
  entity : Entity
  deriving DecidableEq

/-- The constructor `newSrvRoot`: a fresh root holds the server handle,
a brand-new empty registry, and the authenticated entity. -/
def newSrvRoot (srv : Nat) (entity : Entity) : SrvRoot :=
  ⟨srv, Resources.new, entity⟩

/-- The method `Kill`: stops all resources in the registry
(`r.resources.StopAll()`). -/
def SrvRoot.kill (r : SrvRoot) : SrvRoot :=
  { r with resources := (r.resources.stopAll).2 }

/-- The method `requireAgent`: `ErrPerm` unless the entity is an agent,
`nil` (here `none`) otherwise. -/
def SrvRoot.requireAgent (r : SrvRoot) : Option ApiError :=
  if !isAgent r.entity then some ApiError.ErrPerm else none

/-- The method `requireClient`: `ErrPerm` if the entity is an agent,
`nil` (here `none`) otherwise. -/
def SrvRoot.requireClient (r : SrvRoot) : Option ApiError :=
  if isAgent r.entity then some ApiError.ErrPerm else none

/-- The method `AuthMachineAgent`: whether the entity is a
`*state.Machine`. Returned with the unchanged receiver. -/
def SrvRoot.AuthMachineAgent (r : SrvRoot) : Bool × SrvRoot :=
  (r.entity.kind == EntityKind.machine, r)

/-- The method `AuthOwner`: whether the entity's tag equals the given
tag. Returned with the unchanged receiver. -/
def SrvRoot.AuthOwner (r : SrvRoot) (tag : String) : Bool × SrvRoot :=
  (r.entity.tag == tag, r)

/-- The method `AuthEnvironManager`: whether the entity is a machine
running `JobManageEnviron`. Returned with the unchanged receiver. -/
def SrvRoot.AuthEnvironManager (r : SrvRoot) : Bool × SrvRoot :=
  (isMachineWithJob r.entity MachineJob.JobManageEnviron, r)

/-- The method `AuthClient`: whether the entity is not an agent. Returned
with the unchanged receiver. -/
def SrvRoot.AuthClient (r : SrvRoot) : Bool × SrvRoot :=
  (!isAgent r.entity, r)

/-- The method `GetAuthTag`: the entity's tag. Returned with the unchanged
receiver. -/
def SrvRoot.GetAuthTag (r : SrvRoot) : String × SrvRoot :=
  (r.entity.tag, r)

/-- Modelled from the spec: `machine.MachinerAPI` (not under src/), a
facade object scoped to the store, the registry and the authorization
policy (spec section 4.3). -/
structure MachinerAPI where
  authEntity : Entity
  deriving DecidableEq

/-- Modelled from the spec: `machine.AgentAPI` (not under src/). -/
structure AgentAPI where
  authEntity : Entity
  deriving DecidableEq

/-- Modelled from the spec: `deployer.DeployerAPI` (not under src/). -/
structure DeployerAPI where
  authEntity : Entity
  deriving DecidableEq

/-- Modelled from the spec: `upgrader.UpgraderAPI` (not under src/). -/
structure UpgraderAPI where
  authEntity : Entity
  deriving DecidableEq

/-- Modelled from the spec: `machine.NewMachinerAPI` (not under src/). Per
spec section 4.3 the accessor applies the agent-only role gate before
constructing the facade: clients are rejected with permission denied. -/
def NewMachinerAPI (r : SrvRoot) : Except ApiError MachinerAPI :=
  if isAgent r.entity then Except.ok ⟨r.entity⟩ else Except.error ApiError.ErrPerm

/-- Modelled from the spec: `machine.NewAgentAPI` (not under src/),
agent-only role gate before construction (spec section 4.3). -/
def NewAgentAPI (r : SrvRoot) : Except ApiError AgentAPI :=
  if isAgent r.entity then Except.ok ⟨r.entity⟩ else Except.error ApiError.ErrPerm

/-- Modelled from the spec: `deployer.NewDeployerAPI` (not under src/),
agent-only role gate before construction (spec section 4.3). -/
def NewDeployerAPI (r : SrvRoot) : Except ApiError DeployerAPI :=
  if isAgent r.entity then Except.ok ⟨r.entity⟩ else Except.error ApiError.ErrPerm

/-- Modelled from the spec: `upgrader.NewUpgraderAPI` (not under src/),
agent-only role gate before construction (spec section 4.3). -/
def NewUpgraderAPI (r : SrvRoot) : Except ApiError UpgraderAPI :=
  if isAgent r.entity then Except.ok ⟨r.entity⟩ else Except.error ApiError.ErrPerm

/-- The accessor `Machiner(id)`: a non-empty id is rejected with
`ErrBadId`; otherwise the facade constructor's result is returned. The
receiver after the call is the second component. -/
def SrvRoot.Machiner (r : SrvRoot) (id : String) : Except ApiError MachinerAPI × SrvRoot :=
  if id != "" then (Except.error ApiError.ErrBadId, r)
  else (NewMachinerAPI r, r)

/-- The accessor `MachineAgent(id)`: a non-empty id is rejected with
`ErrBadId`; otherwise the facade constructor's result is returned. -/
def SrvRoot.MachineAgent (r : SrvRoot) (id : String) : Except ApiError AgentAPI × SrvRoot :=
  if id != "" then (Except.error ApiError.ErrBadId, r)
  else (NewAgentAPI r, r)

/-- The accessor `Deployer(id)`: a non-empty id is rejected with
`ErrBadId`; otherwise the facade constructor's result is returned. -/
def SrvRoot.Deployer (r : SrvRoot) (id : String) : Except ApiError DeployerAPI × SrvRoot :=
  if id != "" then (Except.error ApiError.ErrBadId, r)
  else (NewDeployerAPI r, r)

/-- The accessor `Upgrader(id)`: a non-empty id is rejected with
`ErrBadId`; otherwise the facade constructor's result is returned. -/
def SrvRoot.Upgrader (r : SrvRoot) (id : String) : Except ApiError UpgraderAPI × SrvRoot :=
  if id != "" then (Except.error ApiError.ErrBadId, r)
  else (NewUpgraderAPI r, r)

/-- The wrapper `srvNotifyWatcher`: watcher handle, id, registry
back-reference. -/
structure SrvNotifyWatcher where
  watcher : Resource
  id : String
  resources : Resources
  deriving DecidableEq

/-- The wrapper `srvStringsWatcher`: watcher handle, id, registry
back-reference. -/
structure SrvStringsWatcher where
  watcher : Resource
  id : String
  resources : Resources
  deriving DecidableEq

/-- The wrapper `srvClientAllWatcher`: watcher handle, id, registry
back-reference. -/
structure SrvClientAllWatcher where
  watcher : Resource
  id : String
  resources : Resources
  deriving DecidableEq

/-- The accessor `NotifyWatcher(id)`: requires an agent; then the Go type
assertion `r.resources.Get(id).(state.NotifyWatcher)` succeeds only when
the lookup hits and the resource has the notify capability, and any
failure of it reports `ErrUnknownWatcher`. -/
def SrvRoot.NotifyWatcher (r : SrvRoot) (id : String) :
    Except ApiError SrvNotifyWatcher × SrvRoot :=
  match r.requireAgent with
  | some err => (Except.error err, r)
  | none =>
    match r.resources.get id with
    | some w =>
      if w.kind == WatcherKind.notify then (Except.ok ⟨w, id, r.resources⟩, r)
      else (Except.error ApiError.ErrUnknownWatcher, r)
    | none => (Except.error ApiError.ErrUnknownWatcher, r)

/-- The accessor `StringsWatcher(id)`: requires an agent; then the type
assertion to `state.StringsWatcher`, with any failure reported as
`ErrUnknownWatcher`. -/
def SrvRoot.StringsWatcher (r : SrvRoot) (id : String) :
    Except ApiError SrvStringsWatcher × SrvRoot :=
  match r.requireAgent with
  | some err => (Except.error err, r)
  | none =>
    match r.resources.get id with
    | some w =>
      if w.kind == WatcherKind.strings then (Except.ok ⟨w, id, r.resources⟩, r)
      else (Except.error ApiError.ErrUnknownWatcher, r)
    | none => (Except.error ApiError.ErrUnknownWatcher, r)

/-- The accessor `AllWatcher(id)`: requires a client; then the type
assertion to `*multiwatcher.Watcher`, with any failure reported as
`ErrUnknownWatcher`. -/
def SrvRoot.AllWatcher (r : SrvRoot) (id : String) :
    Except ApiError SrvClientAllWatcher × SrvRoot :=
  match r.requireClient with
  | some err => (Except.error err, r)
  | none =>
    match r.resources.get id with
    | some w =>
      if w.kind == WatcherKind.all then (Except.ok ⟨w, id, r.resources⟩, r)
      else (Except.error ApiError.ErrUnknownWatcher, r)
    | none => (Except.error ApiError.ErrUnknownWatcher, r)

/-- The liveness responder `srvPinger`: a stateless empty object. -/
inductive SrvPinger
  | mk
  deriving DecidableEq

/-- The accessor `Pinger(id)`: returns `srvPinger{}` and no error,
ignoring the id and applying no role gate. -/
def SrvRoot.Pinger (r : SrvRoot) (id : String) : Except ApiError SrvPinger × SrvRoot :=
  (Except.ok SrvPinger.mk, r)

/-- The method `Ping`: a no-op. -/
def SrvPinger.Ping (p : SrvPinger) : Unit :=
  ()

/-- Whether the lookup of `id` in `rs` is a miss, or hits a resource whose
watcher category is not `k`: exactly the set of situations in which the Go
type assertion of the accessor expecting category `k` fails. -/
def missOrMismatch (rs : Resources) (id : String) (k : WatcherKind) : Bool :=
  match rs.get id with
  | none => true
  | some w => w.kind != k

/-- A sample machine-agent entity. -/
def exMachineEntity : Entity :=
  ⟨EntityKind.machine, "machine-0", [MachineJob.JobManageEnviron]⟩

/-- A sample interactive-client entity. -/
def exUserEntity : Entity :=
  ⟨EntityKind.user, "user-admin", []⟩

/-- A sample single-value (notify) watcher resource whose stop succeeds. -/
def exNotifyResource : Resource :=
  ⟨WatcherKind.notify, false⟩

/-- Registering the sample notify watcher in a fresh registry: the
returned id is the scenario's id X. -/
def exRegistered : String × Resources :=
  Resources.register Resources.new exNotifyResource

/-- A root for a machine agent whose registry holds the sample notify
watcher under the freshly registered id. -/
def exAgentRoot : SrvRoot :=
  ⟨0, exRegistered.2, exMachineEntity⟩

/-- A root for an interactive client with an empty registry. -/
def exClientRoot : SrvRoot :=
  ⟨0, Resources.new, exUserEntity⟩

/-- A root for a machine agent whose registry holds a resource whose stop
operation fails. -/
def exFailStopRoot : SrvRoot :=
  ⟨0, ⟨1, [("1", ⟨WatcherKind.strings, true⟩)]⟩, exMachineEntity⟩

/-- Helper: `Machiner` leaves the receiver (in particular the registry)
unchanged on every path. -/
theorem machiner_snd (r : SrvRoot) (id : String) : (r.Machiner id).2 = r := by
  unfold SrvRoot.Machiner
  split <;> rfl

/-- Helper: `MachineAgent` leaves the receiver unchanged on every path. -/
theorem machineAgent_snd (r : SrvRoot) (id : String) : (r.MachineAgent id).2 = r := by
  unfold SrvRoot.MachineAgent
  split <;> rfl

/-- Helper: `Deployer` leaves the receiver unchanged on every path. -/
theorem deployer_snd (r : SrvRoot) (id : String) : (r.Deployer id).2 = r := by
  unfold SrvRoot.Deployer
  split <;> rfl

/-- Helper: `Upgrader` leaves the receiver unchanged on every path. -/
theorem upgrader_snd (r : SrvRoot) (id : String) : (r.Upgrader id).2 = r := by
  unfold SrvRoot.Upgrader
  split <;> rfl

/-- Helper: `NotifyWatcher` leaves the receiver unchanged on every path. -/
theorem notifyWatcher_snd (r : SrvRoot) (id : String) : (r.NotifyWatcher id).2 = r := by
  unfold SrvRoot.NotifyWatcher
  cases r.requireAgent
  · cases r.resources.get id
    · rfl
    · dsimp only
      split <;> rfl
  · rfl

/-- Helper: `StringsWatcher` leaves the receiver unchanged on every path. -/
theorem stringsWatcher_snd (r : SrvRoot) (id : String) : (r.StringsWatcher id).2 = r := by
  unfold SrvRoot.StringsWatcher
  cases r.requireAgent
  · cases r.resources.get id
    · rfl
    · dsimp only
      split <;> rfl
  · rfl

/-- Helper: `AllWatcher` leaves the receiver unchanged on every path. -/
theorem allWatcher_snd (r : SrvRoot) (id : String) : (r.AllWatcher id).2 = r := by
  unfold SrvRoot.AllWatcher
  cases r.requireClient
  · cases r.resources.get id
    · rfl
    · dsimp only
      split <;> rfl
  · rfl

/-- Claim C1, counterexample: the claim quantifies over every facade
accessor of the root, but `Pinger` ignores its placeholder id entirely:
called with the non-empty id "x" it returns the pinger and no error,
not BadIdentifier. -/
theorem C1_cex_pinger_ignores_id :
    (SrvRoot.Pinger exClientRoot "x").1 = Except.ok SrvPinger.mk ∧
    (SrvRoot.Pinger exClientRoot "x").1 ≠ Except.error ApiError.ErrBadId := by
  decide

/-- Claim C1 (amended): every facade accessor other than `Pinger`
(`Machiner`, `MachineAgent`, `Deployer`, `Upgrader`), called with a
non-empty placeholder id, returns BadIdentifier and leaves the root — in
particular the registry — unchanged. -/
theorem C1_facade_nonempty_id_bad (r : SrvRoot) (id : String) (h : id ≠ "") :
    r.Machiner id = (Except.error ApiError.ErrBadId, r) ∧
    r.MachineAgent id = (Except.error ApiError.ErrBadId, r) ∧
    r.Deployer id = (Except.error ApiError.ErrBadId, r) ∧
    r.Upgrader id = (Except.error ApiError.ErrBadId, r) := by
  simp [SrvRoot.Machiner, SrvRoot.MachineAgent, SrvRoot.Deployer, SrvRoot.Upgrader, h]

/-- Claim C1 witness: the amended claim at a concrete agent root and the
concrete non-empty id "x". -/
theorem C1_facade_nonempty_id_bad_w :
    SrvRoot.Machiner exAgentRoot "x" = (Except.error ApiError.ErrBadId, exAgentRoot) ∧
    SrvRoot.MachineAgent exAgentRoot "x" = (Except.error ApiError.ErrBadId, exAgentRoot) ∧
    SrvRoot.Deployer exAgentRoot "x" = (Except.error ApiError.ErrBadId, exAgentRoot) ∧
    SrvRoot.Upgrader exAgentRoot "x" = (Except.error ApiError.ErrBadId, exAgentRoot) :=
  C1_facade_nonempty_id_bad exAgentRoot "x" (by decide)

/-- Claim C2, counterexample: with an agent entity and the freshly
registered single-value watcher id X, the single-value wrapper request
succeeds as claimed — but the aggregated-delta wrapper request returns
PermissionDenied (the client-only gate fires before any lookup), not the
claimed UnknownResource. -/
theorem C2_cex_allwatcher_perm :
    isAgent exAgentRoot.entity = true ∧
    Resources.get exAgentRoot.resources exRegistered.1 = some exNotifyResource ∧
    exNotifyResource.kind = WatcherKind.notify ∧
    (SrvRoot.NotifyWatcher exAgentRoot exRegistered.1).1 =
      Except.ok ⟨exNotifyResource, exRegistered.1, exAgentRoot.resources⟩ ∧
    (SrvRoot.AllWatcher exAgentRoot exRegistered.1).1 = Except.error ApiError.ErrPerm ∧
    (SrvRoot.AllWatcher exAgentRoot exRegistered.1).1 ≠
      Except.error ApiError.ErrUnknownWatcher := by
  decide

/-- Claim C2 (amended): when the authenticated entity is an agent and id X
is registered as a single-value (notify) watcher, requesting the
single-value wrapper for X succeeds, and requesting the aggregated-delta
(all-watcher) wrapper for X returns PermissionDenied, because the
all-watcher accessor's client-only role gate rejects the agent before the
registry lookup. -/
theorem C2_agent_notify_allwatcher (r : SrvRoot) (x : String) (w : Resource)
    (hAgent : isAgent r.entity = true)
    (hGet : r.resources.get x = some w)
    (hKind : w.kind = WatcherKind.notify) :
    (r.NotifyWatcher x).1 = Except.ok ⟨w, x, r.resources⟩ ∧
    (r.AllWatcher x).1 = Except.error ApiError.ErrPerm := by
  simp [SrvRoot.NotifyWatcher, SrvRoot.AllWatcher, SrvRoot.requireAgent,
    SrvRoot.requireClient, hAgent, hGet, hKind]

/-- Claim C2 witness: the amended claim at the concrete agent root with
the freshly registered notify watcher. -/
theorem C2_agent_notify_allwatcher_w :
    (SrvRoot.NotifyWatcher exAgentRoot exRegistered.1).1 =
      Except.ok ⟨exNotifyResource, exRegistered.1, exAgentRoot.resources⟩ ∧
    (SrvRoot.AllWatcher exAgentRoot exRegistered.1).1 = Except.error ApiError.ErrPerm :=
  C2_agent_notify_allwatcher exAgentRoot exRegistered.1 exNotifyResource
    (by decide) (by decide) (by decide)

/-- Helper: once the agent gate passes, a miss or a notify-capability
mismatch makes `NotifyWatcher` report UnknownResource. -/
theorem notifyWatcher_unknown (r : SrvRoot) (id : String)
    (h : isAgent r.entity = true)
    (hm : missOrMismatch r.resources id WatcherKind.notify = true) :
    (r.NotifyWatcher id).1 = Except.error ApiError.ErrUnknownWatcher := by
  cases hg : r.resources.get id with
  | none => simp [SrvRoot.NotifyWatcher, SrvRoot.requireAgent, h, hg]
  | some w =>
    simp [missOrMismatch, hg] at hm
    simp [SrvRoot.NotifyWatcher, SrvRoot.requireAgent, h, hg, hm]

/-- Helper: once the agent gate passes, a miss or a strings-capability
mismatch makes `StringsWatcher` report UnknownResource. -/
theorem stringsWatcher_unknown (r : SrvRoot) (id : String)
    (h : isAgent r.entity = true)
    (hm : missOrMismatch r.resources id WatcherKind.strings = true) :
    (r.StringsWatcher id).1 = Except.error ApiError.ErrUnknownWatcher := by
  cases hg : r.resources.get id with
  | none => simp [SrvRoot.StringsWatcher, SrvRoot.requireAgent, h, hg]
  | some w =>
    simp [missOrMismatch, hg] at hm
    simp [SrvRoot.StringsWatcher, SrvRoot.requireAgent, h, hg, hm]

/-- Helper: once the client gate passes, a miss or an all-watcher
capability mismatch makes `AllWatcher` report UnknownResource. -/
theorem allWatcher_unknown (r : SrvRoot) (id : String)
    (h : isAgent r.entity = false)
    (hm : missOrMismatch r.resources id WatcherKind.all = true) :
    (r.AllWatcher id).1 = Except.error ApiError.ErrUnknownWatcher := by
  cases hg : r.resources.get id with
  | none => simp [SrvRoot.AllWatcher, SrvRoot.requireClient, h, hg]
  | some w =>
    simp [missOrMismatch, hg] at hm
    simp [SrvRoot.AllWatcher, SrvRoot.requireClient, h, hg, hm]

/-- Helper: a wrapper returned by `NotifyWatcher` always carries a
notify-category watcher. -/
theorem notifyWatcher_ok_kind (r : SrvRoot) (id : String) (w : SrvNotifyWatcher)
    (hw : (r.NotifyWatcher id).1 = Except.ok w) :
    w.watcher.kind = WatcherKind.notify := by
  unfold SrvRoot.NotifyWatcher at hw
  split at hw
  · exact absurd hw (by simp)
  · split at hw
    · rename_i w' hcond
      split at hw
      · rename_i hk
        simp only at hw
        cases hw
        simpa using hk
      · exact absurd hw (by simp)
    · exact absurd hw (by simp)

/-- Helper: a wrapper returned by `StringsWatcher` always carries a
strings-category watcher. -/
theorem stringsWatcher_ok_kind (r : SrvRoot) (id : String) (w : SrvStringsWatcher)
    (hw : (r.StringsWatcher id).1 = Except.ok w) :
    w.watcher.kind = WatcherKind.strings := by
  unfold SrvRoot.StringsWatcher at hw
  split at hw
  · exact absurd hw (by simp)
  · split at hw
    · rename_i w' hcond
      split at hw
      · rename_i hk
        simp only at hw
        cases hw
        simpa using hk
      · exact absurd hw (by simp)
    · exact absurd hw (by simp)

/-- Helper: a wrapper returned by `AllWatcher` always carries an
all-watcher-category watcher. -/
theorem allWatcher_ok_kind (r : SrvRoot) (id : String) (w : SrvClientAllWatcher)
    (hw : (r.AllWatcher id).1 = Except.ok w) :
    w.watcher.kind = WatcherKind.all := by
  unfold SrvRoot.AllWatcher at hw
  split at hw
  · exact absurd hw (by simp)
  · split at hw
    · rename_i w' hcond
      split at hw
      · rename_i hk
        simp only at hw
        cases hw
        simpa using hk
      · exact absurd hw (by simp)
    · exact absurd hw (by simp)

/-- Claim C3, counterexample: the claim quantifies over every entity, but
the role gate runs before the lookup: an interactive client calling
`NotifyWatcher` on an id absent from the registry gets PermissionDenied,
not the claimed UnknownResource. -/
theorem C3_cex_client_notify_miss_perm :
    Resources.get exClientRoot.resources "1" = none ∧
    (SrvRoot.NotifyWatcher exClientRoot "1").1 = Except.error ApiError.ErrPerm ∧
    (SrvRoot.NotifyWatcher exClientRoot "1").1 ≠ Except.error ApiError.ErrUnknownWatcher := by
  decide

/-- Claim C3 (amended): provided the accessor's role gate accepts the
entity (agent for `NotifyWatcher`/`StringsWatcher`, client for
`AllWatcher`), a registry miss or a capability mismatch returns
UnknownResource; and unconditionally, each accessor never returns a
wrapper whose watcher is of the wrong category. -/
theorem C3_watcher_unknown_on_miss_or_mismatch (r : SrvRoot) (id : String) :
    (isAgent r.entity = true → missOrMismatch r.resources id WatcherKind.notify = true →
      (r.NotifyWatcher id).1 = Except.error ApiError.ErrUnknownWatcher) ∧
    (isAgent r.entity = true → missOrMismatch r.resources id WatcherKind.strings = true →
      (r.StringsWatcher id).1 = Except.error ApiError.ErrUnknownWatcher) ∧
    (isAgent r.entity = false → missOrMismatch r.resources id WatcherKind.all = true →
      (r.AllWatcher id).1 = Except.error ApiError.ErrUnknownWatcher) ∧
    (∀ w, (r.NotifyWatcher id).1 = Except.ok w → w.watcher.kind = WatcherKind.notify) ∧
    (∀ w, (r.StringsWatcher id).1 = Except.ok w → w.watcher.kind = WatcherKind.strings) ∧
    (∀ w, (r.AllWatcher id).1 = Except.ok w → w.watcher.kind = WatcherKind.all) :=
  ⟨notifyWatcher_unknown r id,
   stringsWatcher_unknown r id,
   allWatcher_unknown r id,
   notifyWatcher_ok_kind r id,
   stringsWatcher_ok_kind r id,
   allWatcher_ok_kind r id⟩

/-- Claim C3 witness: the amended claim applied at the concrete agent root
and an unregistered id. -/
theorem C3_watcher_unknown_w :
    (SrvRoot.NotifyWatcher exAgentRoot "9").1 = Except.error ApiError.ErrUnknownWatcher :=
  (C3_watcher_unknown_on_miss_or_mismatch exAgentRoot "9").1 (by decide) (by decide)

/-- Claim C4: for every authenticated entity, exactly one of
`requireAgent` and `requireClient` returns success (`nil`, here `none`);
the other returns PermissionDenied. -/
theorem C4_require_exclusive (r : SrvRoot) :
    (r.requireAgent = none ∧ r.requireClient = some ApiError.ErrPerm) ∨
    (r.requireAgent = some ApiError.ErrPerm ∧ r.requireClient = none) := by
  cases h : isAgent r.entity <;>
    simp [SrvRoot.requireAgent, SrvRoot.requireClient, h]

/-- Claim C4 witness: the exclusivity at the concrete agent root. -/
theorem C4_require_exclusive_w :
    (SrvRoot.requireAgent exAgentRoot = none ∧
      SrvRoot.requireClient exAgentRoot = some ApiError.ErrPerm) ∨
    (SrvRoot.requireAgent exAgentRoot = some ApiError.ErrPerm ∧
      SrvRoot.requireClient exAgentRoot = none) :=
  C4_require_exclusive exAgentRoot

/-- Claim C5: whenever an accessor fails (its first component is an
error — PermissionDenied, BadIdentifier or UnknownResource), no facade or
wrapper is constructed (the result is not `ok` of anything) and the root,
in particular the registry, is unchanged by the call. -/
theorem C5_error_no_construction_frame (r : SrvRoot) (id : String) (e : ApiError) :
    ((r.Machiner id).1 = Except.error e →
      (r.Machiner id).2 = r ∧ ∀ f, (r.Machiner id).1 ≠ Except.ok f) ∧
    ((r.MachineAgent id).1 = Except.error e →
      (r.MachineAgent id).2 = r ∧ ∀ f, (r.MachineAgent id).1 ≠ Except.ok f) ∧
    ((r.Deployer id).1 = Except.error e →
      (r.Deployer id).2 = r ∧ ∀ f, (r.Deployer id).1 ≠ Except.ok f) ∧
    ((r.Upgrader id).1 = Except.error e →
      (r.Upgrader id).2 = r ∧ ∀ f, (r.Upgrader id).1 ≠ Except.ok f) ∧
    ((r.NotifyWatcher id).1 = Except.error e →
      (r.NotifyWatcher id).2 = r ∧ ∀ f, (r.NotifyWatcher id).1 ≠ Except.ok f) ∧
    ((r.StringsWatcher id).1 = Except.error e →
      (r.StringsWatcher id).2 = r ∧ ∀ f, (r.StringsWatcher id).1 ≠ Except.ok f) ∧
    ((r.AllWatcher id).1 = Except.error e →
      (r.AllWatcher id).2 = r ∧ ∀ f, (r.AllWatcher id).1 ≠ Except.ok f) ∧
    ((r.Pinger id).1 = Except.error e →
      (r.Pinger id).2 = r ∧ ∀ f, (r.Pinger id).1 ≠ Except.ok f) :=
  ⟨fun h => ⟨machiner_snd r id, fun _ hf => Except.noConfusion (h.symm.trans hf)⟩,
   fun h => ⟨machineAgent_snd r id, fun _ hf => Except.noConfusion (h.symm.trans hf)⟩,
   fun h => ⟨deployer_snd r id, fun _ hf => Except.noConfusion (h.symm.trans hf)⟩,
   fun h => ⟨upgrader_snd r id, fun _ hf => Except.noConfusion (h.symm.trans hf)⟩,
   fun h => ⟨notifyWatcher_snd r id, fun _ hf => Except.noConfusion (h.symm.trans hf)⟩,
   fun h => ⟨stringsWatcher_snd r id, fun _ hf => Except.noConfusion (h.symm.trans hf)⟩,
   fun h => ⟨allWatcher_snd r id, fun _ hf => Except.noConfusion (h.symm.trans hf)⟩,
   fun h => ⟨rfl, fun _ hf => Except.noConfusion (h.symm.trans hf)⟩⟩

/-- Claim C5 witness: applied at the concrete client root, a bad id and
the BadIdentifier error it actually produces. -/
theorem C5_error_no_construction_frame_w :
    (SrvRoot.Machiner exClientRoot "x").2 = exClientRoot :=
  ((C5_error_no_construction_frame exClientRoot "x" ApiError.ErrBadId).1 (by decide)).1

/-- Claim C6: root teardown (`Kill` = `resources.StopAll()`) drains the
registry completely: afterwards no entry remains tracked and every lookup
misses — for every root, in particular also when some resource's stop
operation fails; moreover a stop is attempted for each tracked resource
(one outcome per entry) and the entity is untouched. -/
theorem C6_kill_drains (r : SrvRoot) :
    (r.kill).resources.entries = [] ∧
    (∀ id, (r.kill).resources.get id = none) ∧
    ((r.resources.stopAll).1.length = r.resources.entries.length) ∧
    (r.kill).entity = r.entity :=
  ⟨rfl, fun _ => rfl, List.length_map _ _, rfl⟩

/-- Claim C6 witness: teardown at the concrete root holding a resource
whose stop operation fails still drains the registry. -/
theorem C6_kill_drains_w :
    (SrvRoot.kill exFailStopRoot).resources.entries = [] :=
  (C6_kill_drains exFailStopRoot).1

/-- Claim C7: the identifier check of `MachineAgent` runs before and
independently of the role gate — any non-empty placeholder id yields
BadIdentifier for every entity, agents included — and success requires
both an empty id and the agent role. -/
theorem C7_bad_id_before_gate (r : SrvRoot) (id : String) :
    (id ≠ "" → (r.MachineAgent id).1 = Except.error ApiError.ErrBadId) ∧
    (∀ a, (r.MachineAgent id).1 = Except.ok a → id = "" ∧ isAgent r.entity = true) := by
  constructor
  · intro h
    simp [SrvRoot.MachineAgent, h]
  · intro a ha
    by_cases hid : id = ""
    · subst hid
      cases hAg : isAgent r.entity
      · simp [SrvRoot.MachineAgent, NewAgentAPI, hAg] at ha
      · exact ⟨rfl, rfl⟩
    · simp [SrvRoot.MachineAgent, hid] at ha

/-- Claim C7 witness: a concrete agent root with the non-empty placeholder
"nonempty" gets BadIdentifier. -/
theorem C7_bad_id_before_gate_w :
    (SrvRoot.MachineAgent exAgentRoot "nonempty").1 = Except.error ApiError.ErrBadId :=
  (C7_bad_id_before_gate exAgentRoot "nonempty").1 (by decide)

/-- Claim C8: the authorization queries (`AuthMachineAgent`, `AuthOwner`,
`AuthEnvironManager`, `AuthClient`, `GetAuthTag`) are pure: each returns a
plain value (their types admit no failure) and leaves the root — entity,
registry and server handle — exactly as it was. -/
theorem C8_auth_queries_pure (r : SrvRoot) (tag : String) :
    (r.AuthMachineAgent).2 = r ∧
    (r.AuthOwner tag).2 = r ∧
    (r.AuthEnvironManager).2 = r ∧
    (r.AuthClient).2 = r ∧
    (r.GetAuthTag).2 = r :=
  ⟨rfl, rfl, rfl, rfl, rfl⟩

/-- Claim C8 witness: the ownership query at the concrete client root
leaves the root unchanged. -/
theorem C8_auth_queries_pure_w :
    (SrvRoot.AuthOwner exClientRoot "user-admin").2 = exClientRoot :=
  (C8_auth_queries_pure exClientRoot "user-admin").2.1

/-- Claim C9: for every root and every id string, non-empty ones included,
`Pinger` succeeds, returning the pinger and no error — never BadIdentifier
and with no role gate — and `Ping` does nothing. -/
theorem C9_pinger_total (r : SrvRoot) (id : String) :
    r.Pinger id = (Except.ok SrvPinger.mk, r) ∧
    SrvPinger.Ping SrvPinger.mk = () :=
  ⟨rfl, rfl⟩

/-- Claim C9 witness: `Pinger` with the non-empty id "x" at the concrete
agent root. -/
theorem C9_pinger_total_w :
    SrvRoot.Pinger exAgentRoot "x" = (Except.ok SrvPinger.mk, exAgentRoot) :=
  (C9_pinger_total exAgentRoot "x").1

/-- Claim C10: `AuthClient` is true exactly when `requireClient` succeeds
(returns `nil`, here `none`) and exactly when `requireAgent` fails with
PermissionDenied. -/
theorem C10_auth_client_iff (r : SrvRoot) :
    ((r.AuthClient).1 = true ↔ r.requireClient = none) ∧
    ((r.AuthClient).1 = true ↔ r.requireAgent = some ApiError.ErrPerm) := by
  cases h : isAgent r.entity <;>
    simp [SrvRoot.AuthClient, SrvRoot.requireAgent, SrvRoot.requireClient, h]

/-- Claim C10 witness: the equivalences at the concrete client root. -/
theorem C10_auth_client_iff_w :
    ((SrvRoot.AuthClient exClientRoot).1 = true ↔
      SrvRoot.requireClient exClientRoot = none) ∧
    ((SrvRoot.AuthClient exClientRoot).1 = true ↔
      SrvRoot.requireAgent exClientRoot = some ApiError.ErrPerm) :=
  C10_auth_client_iff exClientRoot

end ApiServer
